import Mathlib

/-!
Shallow embedding of the DataVibe data pipeline (src/index.js) and
verification of its specified properties.

Modelling conventions.
* A JS value held in a table cell is a number, a string or null; a
  missing object property (JS undefined) is modelled as Option.none.
* JS numbers are modelled as exact rationals (the type JsNum below,
  kept in lowest terms so that structural equality is numeric
  equality).  Every numeric input the verified properties exercise is
  a decimal fraction, on which ideal arithmetic and IEEE doubles
  agree; the two fractional thresholds of the source (0.8 and 0.5)
  are compared against ratios whose denominator is a sample size of at
  most 100, far outside double rounding error, so the exact
  comparisons used here coincide with the float comparisons of the
  source.
* Rows and type maps are association lists in property insertion
  order, which matches JS object property order for the non
  integer-like keys used throughout.  A JS property holding undefined
  is modelled as an absent key; every read of such maps in the source
  applies a default, making the two observationally equal.
* Host dependent library behaviour (Date.parse, locale aware compare)
  is taken as an explicit function parameter of the embedded function.
-/

namespace DataVibe

/-- Euclidean gcd driven by explicit fuel, so that it is structural
recursion and reduces inside the kernel. -/
def gcdF : Nat → Nat → Nat → Nat
  | 0, a, _ => a
  | _ + 1, a, 0 => a
  | fuel + 1, a, b + 1 => gcdF fuel (b + 1) (a % (b + 1))

/-- An exact rational number standing for a JS number.  Values built
by the smart constructors below are always in lowest terms with a
positive denominator, so derived structural equality coincides with
numeric equality. -/
structure JsNum where
  n : Int
  d : Nat
deriving DecidableEq

/-- Normalising constructor: reduces n / d to lowest terms (d is a
positive denominator; d = 0 never occurs at call sites and is mapped
to 0). -/
def mkNum (n : Int) (d : Nat) : JsNum :=
  if d = 0 then ⟨0, 1⟩
  else
    let g := gcdF (n.natAbs + d + 1) n.natAbs d
    ⟨n / (g : Int), d / g⟩

instance : OfNat JsNum k := ⟨⟨(k : Int), 1⟩⟩

def JsNum.add (a b : JsNum) : JsNum :=
  mkNum (a.n * (b.d : Int) + b.n * (a.d : Int)) (a.d * b.d)

def JsNum.sub (a b : JsNum) : JsNum :=
  mkNum (a.n * (b.d : Int) - b.n * (a.d : Int)) (a.d * b.d)

def JsNum.mul (a b : JsNum) : JsNum :=
  mkNum (a.n * b.n) (a.d * b.d)

/-- Exact division; a zero divisor is guarded against at every call
site of the source, so the value returned for it is immaterial. -/
def JsNum.div (a b : JsNum) : JsNum :=
  if b.n = 0 then ⟨0, 1⟩
  else mkNum (if b.n < 0 then -(a.n * (b.d : Int)) else a.n * (b.d : Int)) (a.d * b.n.natAbs)

def JsNum.neg (a : JsNum) : JsNum := ⟨-a.n, a.d⟩

instance : Add JsNum := ⟨JsNum.add⟩
instance : Sub JsNum := ⟨JsNum.sub⟩
instance : Mul JsNum := ⟨JsNum.mul⟩
instance : Div JsNum := ⟨JsNum.div⟩
instance : Neg JsNum := ⟨JsNum.neg⟩

instance : LT JsNum := ⟨fun a b => a.n * (b.d : Int) < b.n * (a.d : Int)⟩
instance : LE JsNum := ⟨fun a b => a.n * (b.d : Int) ≤ b.n * (a.d : Int)⟩

instance (a b : JsNum) : Decidable (a < b) :=
  inferInstanceAs (Decidable (a.n * (b.d : Int) < b.n * (a.d : Int)))

instance (a b : JsNum) : Decidable (a ≤ b) :=
  inferInstanceAs (Decidable (a.n * (b.d : Int) ≤ b.n * (a.d : Int)))

/-- 10^k as a JsNum (already in lowest terms). -/
def pow10 (k : Nat) : JsNum := ⟨((10 : Int) ^ k), 1⟩

/-- Characters treated as whitespace by the model of JS trimming and
number parsing (the common subset; exotic Unicode spaces never occur in
the verified inputs). -/
def isWsChar (c : Char) : Bool :=
  c = ' ' || c = '\t' || c = '\n' || c = '\r'

/-- Model of String.prototype.trim over the whitespace subset above. -/
def jsTrim (s : String) : String :=
  String.mk (((s.toList.dropWhile isWsChar).reverse.dropWhile isWsChar).reverse)

/-- Numeric value of a digit character. -/
def digitVal (c : Char) : Nat := c.toNat - '0'.toNat

/-- Reads a maximal digit prefix: accumulated value, digit count, rest. -/
def readDigits : Nat → Nat → List Char → Nat × Nat × List Char
  | acc, n, [] => (acc, n, [])
  | acc, n, c :: cs =>
    if c.isDigit then readDigits (acc * 10 + digitVal c) (n + 1) cs
    else (acc, n, c :: cs)

/-- Parses a prefix of the shape digits [ . digits ] [ e sign digits ]
of a JS decimal literal, returning its exact value and the unconsumed
rest; none when no digit occurs before the exponent marker (JS NaN). -/
def parseUnsignedDec (cs : List Char) : Option (JsNum × List Char) :=
  let p1 := readDigits 0 0 cs
  let ip := p1.1
  let ni := p1.2.1
  let r1 := p1.2.2
  let p2 :=
    match r1 with
    | '.' :: cs2 => readDigits 0 0 cs2
    | _ => (0, 0, r1)
  let fp := p2.1
  let nf := p2.2.1
  let r2 := p2.2.2
  if ni = 0 && nf = 0 then none
  else
    let base : JsNum := JsNum.add ⟨(ip : Int), 1⟩ (JsNum.div ⟨(fp : Int), 1⟩ (pow10 nf))
    match r2 with
    | c :: cs3 =>
      if c = 'e' || c = 'E' then
        let sp :=
          match cs3 with
          | '+' :: t => (false, t)
          | '-' :: t => (true, t)
          | t => (false, t)
        let p3 := readDigits 0 0 sp.2
        if p3.2.1 = 0 then some (base, r2)
        else some ((if sp.1 then JsNum.div base (pow10 p3.1) else JsNum.mul base (pow10 p3.1)), p3.2.2)
      else some (base, r2)
    | [] => some (base, [])

/-- Model of JS parseFloat: skip leading whitespace, optional sign,
longest decimal-literal prefix; none models NaN.  (The Infinity form is
not modelled; no input of the repository produces it.) -/
def jsParseFloat (s : String) : Option JsNum :=
  let cs := s.toList.dropWhile isWsChar
  let sp :=
    match cs with
    | '-' :: t => (true, t)
    | '+' :: t => (false, t)
    | t => (false, t)
  match parseUnsignedDec sp.2 with
  | some (q, _) => some (if sp.1 then JsNum.neg q else q)
  | none => none

/-- Model of JS Number(string): trim, the empty string gives 0,
otherwise the whole string must be one signed decimal literal; none
models NaN.  (Hex, octal, binary and Infinity forms are not modelled;
no verified input uses them.) -/
def jsNumberOfString (s : String) : Option JsNum :=
  let cs := (jsTrim s).toList
  if cs = [] then some 0
  else
    let sp :=
      match cs with
      | '-' :: t => (true, t)
      | '+' :: t => (false, t)
      | t => (false, t)
    match parseUnsignedDec sp.2 with
    | some (q, []) => some (if sp.1 then JsNum.neg q else q)
    | _ => none

/-- Model of value.replace(/,/g, ''). -/
def stripCommas (s : String) : String :=
  String.mk (s.toList.filter (fun c => !(c = ',')))

/-- Model of value.replace(/[^0-9.-]/g, ''). -/
def stripNonNum (s : String) : String :=
  String.mk (s.toList.filter (fun c => c.isDigit || c = '.' || c = '-'))

/-- Model of value.replace(/[\$,%]/g, ''). -/
def stripCurrencyMarks (s : String) : String :=
  String.mk (s.toList.filter (fun c => !(c = '$' || c = ',' || c = '%')))

/-- Model of the test /[^0-9.-]/.test(value). -/
def hasNonNumChar (s : String) : Bool :=
  s.toList.any (fun c => !(c.isDigit || c = '.' || c = '-'))

/-- Model of the test /\d/.test(value). -/
def hasDigitChar (s : String) : Bool :=
  s.toList.any Char.isDigit

/-- Model of JS number-to-string on the values the pipeline produces:
integers print exactly; non-integer decimal fractions print as their
exact decimal expansion (JS shortest round-trip printing agrees on
these); any other rational falls back to a num/den rendering (JS would
print a rounded float there; no verified property reaches that case). -/
def jsNumToString (q : JsNum) : String :=
  if q.d = 1 then toString q.n
  else
    match (List.range 40).find? (fun k => (q.n * ((10 : Int) ^ k)) % (q.d : Int) = 0) with
    | some k =>
      let a := ((q.n * ((10 : Int) ^ k)) / (q.d : Int)).natAbs
      let ds := Nat.toDigits 10 a
      let padded := List.replicate (k + 1 - ds.length) '0' ++ ds
      let ip := padded.take (padded.length - k)
      let fp := padded.drop (padded.length - k)
      (if q.n < 0 then "-" else "") ++ String.mk ip ++ "." ++ String.mk fp
    | none => toString q.n ++ "/" ++ toString q.d

/-- A JS value stored in a table cell: number, string or null.  A
missing property (JS undefined) is represented by Option.none at the
lookup level, never stored. -/
inductive Value where
  | num (q : JsNum)
  | str (s : String)
  | vnull
deriving DecidableEq

/-- A row is a JS object: an association list of properties in
insertion order. -/
abbrev Row := List (String × Value)

/-- Dataset metadata, the meta object of the parse result: ordered
field list and the inferred-type map. -/
structure DatasetMeta where
  fields : List String
  inferredTypes : List (String × String)
deriving DecidableEq

/-- A tabular dataset as threaded through the pipeline. -/
structure Dataset where
  data : List Row
  meta : DatasetMeta
deriving DecidableEq

/-- Association-list lookup; none models reading an absent property
(JS undefined). -/
def assocGet {α : Type} : List (String × α) → String → Option α
  | [], _ => none
  | (k2, v) :: t, k => if k2 = k then some v else assocGet t k

/-- Association-list update, modelling JS property assignment and the
spread-update idiom: an existing key keeps its position, a new key is
appended. -/
def assocSet {α : Type} (l : List (String × α)) (k : String) (v : α) : List (String × α) :=
  if (assocGet l k).isSome then
    l.map (fun kv => if kv.1 = k then (k, v) else kv)
  else l ++ [(k, v)]

/-- Association-list removal, modelling the JS delete operator. -/
def assocRemove {α : Type} (l : List (String × α)) (k : String) : List (String × α) :=
  l.filter (fun kv => !(kv.1 = k))

/-- Reads a cell of a row. -/
def getVal (r : Row) (c : String) : Option Value :=
  assocGet r c

/-- Model of JS String(value) for a definitely-present value. -/
def jsValueToString : Value → String
  | .num q => jsNumToString q
  | .str s => s
  | .vnull => "null"

/-- Model of JS String(value) where value may be undefined. -/
def jsString : Option Value → String
  | some v => jsValueToString v
  | none => "undefined"

/-- JS truthiness of a possibly-absent cell value (undefined, null, the
empty string and the number 0 are falsy; NaN cannot be stored in this
model because failed numeric parses stay Option.none). -/
def jsTruthy : Option Value → Bool
  | none => false
  | some .vnull => false
  | some (.str s) => !(s = "")
  | some (.num q) => !(q = ⟨0, 1⟩)

/-- Model of JS loose equality (==) restricted to the value shapes that
occur in cells and transformation configs: number/string comparison
coerces the string with Number(), null equals only null (row cells are
never undefined at the comparison site, the source returns early). -/
def looseEq : Value → Value → Bool
  | .num a, .num b => a = b
  | .str a, .str b => a = b
  | .num a, .str b =>
    match jsNumberOfString b with
    | some q => a = q
    | none => false
  | .str a, .num b =>
    match jsNumberOfString a with
    | some q => q = b
    | none => false
  | .vnull, .vnull => true
  | _, _ => false

/-- Whether needle occurs at the start of hay. -/
def startsWithChars : List Char → List Char → Bool
  | _, [] => true
  | [], _ :: _ => false
  | a :: as, b :: bs => a = b && startsWithChars as bs

/-- Whether needle occurs anywhere in hay, modelling
String.prototype.includes. -/
def containsSub : List Char → List Char → Bool
  | [], needle => startsWithChars [] needle
  | c :: t, needle => startsWithChars (c :: t) needle || containsSub t needle

/-- Model of String.prototype.toLowerCase as a character list (ASCII
lowering; the verified inputs are ASCII). -/
def lowerChars (s : String) : List Char :=
  s.toList.map Char.toLower

/-- Model of a.toLowerCase().includes(b.toLowerCase()). -/
def jsContainsCi (hay needle : String) : Bool :=
  containsSub (lowerChars hay) (lowerChars needle)

/-- Model of a.trim().toLowerCase() === b.trim().toLowerCase(), the
comparison used for column resolution. -/
def ciTrimEq (a b : String) : Bool :=
  lowerChars (jsTrim a) = lowerChars (jsTrim b)

/-! ### Transform Engine (applyTransformation and helpers) -/

/-- One remove_rows condition: { column, operator, value }. -/
structure RemoveCondition where
  column : String
  operator : String
  value : Value
deriving DecidableEq

/-- Numeric coercion of the condition value: a number is used as is,
anything else goes through String(value) with commas stripped and
parseFloat. -/
def condValNum (c : RemoveCondition) : Option JsNum :=
  match c.value with
  | .num q => some q
  | v => jsParseFloat (stripCommas (jsValueToString v))

/-- checkCondition of transformRemoveRows: an absent cell fails every
operator; equals/not_equals use loose equality, greater_than/less_than
use comma-stripped parseFloat on both sides and fail on NaN, contains
is case-insensitive substring, unknown operators fail. -/
def checkCondition (row : Row) (c : RemoveCondition) : Bool :=
  match getVal row c.column with
  | none => false
  | some rowValue =>
    let numericRowValue := jsParseFloat (stripCommas (jsValueToString rowValue))
    if c.operator = "equals" then looseEq rowValue c.value
    else if c.operator = "not_equals" then !(looseEq rowValue c.value)
    else if c.operator = "greater_than" then
      match numericRowValue, condValNum c with
      | some a, some b => decide (b < a)
      | _, _ => false
    else if c.operator = "less_than" then
      match numericRowValue, condValNum c with
      | some a, some b => decide (a < b)
      | _, _ => false
    else if c.operator = "contains" then
      jsContainsCi (jsValueToString rowValue) (jsValueToString c.value)
    else false

/-- transformRemoveRows: keeps exactly the rows on which NOT every
condition holds (the rows matching the whole conjunction are removed). -/
def transformRemoveRows (d : Dataset) (conditions : List RemoveCondition) : Dataset :=
  { d with data := d.data.filter (fun row => !(conditions.all (checkCondition row))) }

/-- Parameters of create_column. -/
structure CreateColumnParams where
  newColumn : String
  column1 : String
  operator : String
  column2 : String
deriving DecidableEq

/-- The per-row arithmetic of create_column once both operands parsed:
unknown operators and division by zero give null. -/
def createColumnValue (op : String) (v1 v2 : JsNum) : Value :=
  if op = "add" then .num (v1 + v2)
  else if op = "subtract" then .num (v1 - v2)
  else if op = "multiply" then .num (v1 * v2)
  else if op = "divide" then (if !(v2 = ⟨0, 1⟩) then .num (v1 / v2) else .vnull)
  else .vnull

/-- transformCreateColumn: per row, both operands are comma-stripped
and parsed with parseFloat; any parse failure yields a null cell; the
new field is appended to the schema. -/
def transformCreateColumn (d : Dataset) (p : CreateColumnParams) : Dataset :=
  { data := d.data.map (fun row =>
      let val1 := jsParseFloat (stripCommas (jsString (getVal row p.column1)))
      let val2 := jsParseFloat (stripCommas (jsString (getVal row p.column2)))
      let newValue : Value :=
        match val1, val2 with
        | some v1, some v2 => createColumnValue p.operator v1 v2
        | _, _ => .vnull
      assocSet row p.newColumn newValue),
    meta := { d.meta with fields := d.meta.fields ++ [p.newColumn] } }

/-- Replaces the first occurrence of old by new, modelling
fields[fields.indexOf(old)] = new guarded by indexOf > -1. -/
def replaceFirst : List String → String → String → List String
  | [], _, _ => []
  | f :: t, o, n => if f = o then n :: t else f :: replaceFirst t o n

/-- transformRenameColumn: per row, the value moves to the new key
(appended) and the old key is deleted; the field list is patched at the
first occurrence of the old name. -/
def transformRenameColumn (d : Dataset) (oldColumn newColumn : String) : Dataset :=
  { data := d.data.map (fun row =>
      match getVal row oldColumn with
      | some v => assocRemove (assocSet row newColumn v) oldColumn
      | none => row),
    meta := { d.meta with fields := replaceFirst d.meta.fields oldColumn newColumn } }

/-- The transformation command decoded from the AI JSON, as a tagged
union (the source switches on config.action). -/
inductive TransformConfig where
  | removeRows (explanation : Option String) (conditions : List RemoveCondition)
  | createColumn (explanation : Option String) (p : CreateColumnParams)
  | renameColumn (explanation : Option String) (oldColumn newColumn : String)
  | unsupported (action : String)
deriving DecidableEq

/-- config.explanation || "Transformation applied." (the empty string
is falsy). -/
def explanationText : Option String → String
  | some s => if s = "" then "Transformation applied." else s
  | none => "Transformation applied."

/-- Result of applyTransformation: { success: true, message, newData }
or { success: false, message }. -/
inductive TransformResult where
  | ok (message : String) (newData : Dataset)
  | err (message : String)
deriving DecidableEq

/-- applyTransformation: validates, then works on a deep copy of the
source dataset (value semantics make the copy implicit) and returns a
brand-new dataset on success. -/
def applyTransformation (config : TransformConfig) (sourceData : Dataset) : TransformResult :=
  match config with
  | .removeRows e conds =>
    let initialRowCount := sourceData.data.length
    let nd := transformRemoveRows sourceData conds
    let rowsRemoved := initialRowCount - nd.data.length
    .ok ("Removed " ++ toString rowsRemoved ++ " row(s). " ++ explanationText e) nd
  | .createColumn e p =>
    if p.newColumn ∈ sourceData.meta.fields then
      .err ("Column \"" ++ p.newColumn ++ "\" already exists.")
    else
      let nd := transformCreateColumn sourceData p
      let nd2 := { nd with meta := { nd.meta with
        inferredTypes := assocSet nd.meta.inferredTypes p.newColumn "numerical" } }
      .ok ("Created new column \x27" ++ p.newColumn ++ "\x27. " ++ explanationText e) nd2
  | .renameColumn e oldColumn newColumn =>
    if !(oldColumn ∈ sourceData.meta.fields) then
      .err ("Column to rename \"" ++ oldColumn ++ "\" does not exist.")
    else if newColumn ∈ sourceData.meta.fields then
      .err ("A column named \"" ++ newColumn ++ "\" already exists.")
    else
      let nd := transformRenameColumn sourceData oldColumn newColumn
      let nd2 := { nd with meta := { nd.meta with
        inferredTypes :=
          match assocGet nd.meta.inferredTypes oldColumn with
          | some t => assocRemove (assocSet nd.meta.inferredTypes newColumn t) oldColumn
          | none => assocRemove nd.meta.inferredTypes oldColumn } }
      .ok ("Renamed column \"" ++ oldColumn ++ "\" to \"" ++ newColumn ++ "\". " ++ explanationText e) nd2
  | .unsupported action =>
    .err ("Unsupported transformation action: " ++ action)

/-- An active or staged filter.  Filter values are the clicked chart
labels, which the preparer always produces as strings. -/
structure AppFilter where
  column : String
  value : String
deriving DecidableEq

/-- The session state around handleTransformation: master dataset,
active view, active filters and the filtered-state flag. -/
structure SessionState where
  originalData : Dataset
  activeData : Dataset
  activeFilters : List AppFilter
  isFilteredState : Bool
deriving DecidableEq

/-- The state update of handleTransformation: on success both master
and active data become the new dataset, active filters are discarded
and (when any were present) the filtered flag is cleared; on failure
the state is untouched (only an error message is shown). -/
def handleTransformationUpdate (config : TransformConfig) (st : SessionState) : SessionState :=
  match applyTransformation config st.originalData with
  | .ok _ nd =>
    { originalData := nd
      activeData := nd
      activeFilters := []
      isFilteredState := if st.activeFilters.length > 0 then false else st.isFilteredState }
  | .err _ => st

/-! ### Filter Engine (staging, dedup, commit) -/

/-- Same column and value, the duplicate test of the click handler and
of handleApplyStagedFilters (strict === on the string fields). -/
def filterKeyEq (a b : AppFilter) : Bool :=
  a.column = b.column && a.value = b.value

/-- Staged plus active filter sets as manipulated by the chart click
handler and the staging controls. -/
structure FilterState where
  staged : List AppFilter
  active : List AppFilter
deriving DecidableEq

/-- The staging branch of the chart double-click handler: the filter is
pushed onto the staged list unless an equal (column+value) filter is
already staged or already active, in which case nothing changes (only a
tooltip is shown). -/
def stageFilter (st : FilterState) (f : AppFilter) : FilterState :=
  let isDuplicate := st.staged.any (fun g => filterKeyEq g f)
  let isAlreadyActive := st.active.any (fun g => filterKeyEq g f)
  if !isDuplicate && !isAlreadyActive then
    { st with staged := st.staged ++ [f] }
  else st

/-- Keep-first-occurrence dedup, the behaviour of
filter((f, i, self) => i === self.findIndex(sameKey)) in
handleApplyStagedFilters: an element is kept exactly when no earlier
element has the same column+value.  seen accumulates the kept prefix. -/
def dedupFiltersAux : List AppFilter → List AppFilter → List AppFilter
  | _, [] => []
  | seen, f :: t =>
    if seen.any (fun g => filterKeyEq g f) then dedupFiltersAux seen t
    else f :: dedupFiltersAux (seen ++ [f]) t

/-- Dedup by column+value keeping first occurrences. -/
def dedupFilters (l : List AppFilter) : List AppFilter :=
  dedupFiltersAux [] l

/-- handleApplyStagedFilters: active becomes active ++ staged
deduplicated by column+value, staged is cleared. -/
def applyStagedToActive (st : FilterState) : FilterState :=
  { staged := [], active := dedupFilters (st.active ++ st.staged) }

/-- No two entries of the list share column+value. -/
def filtersNodup (l : List AppFilter) : Prop :=
  l.Pairwise (fun a b => filterKeyEq a b = false)

/-! ### Plan Executor: executeAggregate -/

/-- Parameters of an aggregate step. -/
structure AggParams where
  groupBy : String
  aggregation : String
  valueColumn : Option String
deriving DecidableEq

/-- Reads row[valueColumn] where valueColumn itself may be absent
(row[undefined] is undefined). -/
def valueCell (row : Row) (vc : Option String) : Option Value :=
  match vc with
  | some c => getVal row c
  | none => none

/-- One loop iteration of executeAggregate: rows with an
undefined/null group key are skipped; otherwise the group keyed by
String(key) gets its sum increased when the aggregation is not count
and the value cell parses, and its count always increased by one. -/
def aggStep (p : AggParams) (groups : List (String × (JsNum × Nat))) (row : Row) :
    List (String × (JsNum × Nat)) :=
  match getVal row p.groupBy with
  | none => groups
  | some .vnull => groups
  | some v =>
    let key := jsValueToString v
    let g := (assocGet groups key).getD (⟨0, 1⟩, 0)
    let g1 : JsNum × Nat :=
      if !(p.aggregation = "count") then
        match jsParseFloat (stripCommas (jsString (valueCell row p.valueColumn))) with
        | some q => (g.1 + q, g.2)
        | none => g
      else g
    assocSet groups key (g1.1, g1.2 + 1)

/-- The value emitted for one group: sum, average (0 for an empty
count) or count. -/
def finalizeGroup (aggregation : String) (g : JsNum × Nat) : JsNum :=
  if aggregation = "sum" then g.1
  else if aggregation = "average" then (if g.2 > 0 then g.1 / ⟨(g.2 : Int), 1⟩ else ⟨0, 1⟩)
  else ⟨(g.2 : Int), 1⟩

/-- The name of the aggregate output column:
aggregation + "_" + (valueColumn || "count"). -/
def aggColumnName (p : AggParams) : String :=
  p.aggregation ++ "_" ++
    (match p.valueColumn with
     | some s => if s = "" then "count" else s
     | none => "count")

/-- executeAggregate: groups the rows, finalizes each group and emits a
brand-new two-column dataset.  The group iteration order is insertion
order (JS object key order for the non integer-like keys used here);
the emitted meta has no inferredTypes entry, modelled as the empty
map since every read of the map applies a default. -/
def executeAggregate (d : Dataset) (p : AggParams) : Dataset :=
  let groups := d.data.foldl (aggStep p) []
  let newColumnName := aggColumnName p
  { data := groups.map (fun kg =>
      [(p.groupBy, Value.str kg.1), (newColumnName, Value.num (finalizeGroup p.aggregation kg.2))]),
    meta := { fields := [p.groupBy, newColumnName], inferredTypes := [] } }

/-! ### Data Normalizer (cleanAndNormalizeData) -/

/-- The sampled cell values of one field: first 100 rows. -/
def sampleVals (data : List Row) (f : String) : List (Option Value) :=
  (data.take 100).map (fun r => getVal r f)

/-- Not skipped by the cleaning loop: not null, not undefined, not
blank after trimming. -/
def jsValidVal (ov : Option Value) : Bool :=
  match ov with
  | none => false
  | some .vnull => false
  | some v => !(jsTrim (jsValueToString v) = "")

/-- Counts toward numericLikeCount: a number, a string that is already
a clean number (Number succeeds and the trim is non-empty), or a string
whose strip to [0-9.-] is non-empty, Number-parseable and contains a
digit. -/
def numericLikeVal (ov : Option Value) : Bool :=
  match ov with
  | some (.num _) => true
  | some (.str s) =>
    if (jsNumberOfString s).isSome && !(jsTrim s = "") then true
    else
      let cleaned := stripNonNum s
      !(cleaned = "") && (jsNumberOfString cleaned).isSome && hasDigitChar cleaned
  | _ => false

/-- Sets needsCleaning: a string that is not already a clean number,
whose strip parses with a digit present, and which contained some
character outside [0-9.-]. -/
def dirtyVal (ov : Option Value) : Bool :=
  match ov with
  | some (.str s) =>
    if (jsNumberOfString s).isSome && !(jsTrim s = "") then false
    else
      let cleaned := stripNonNum s
      !(cleaned = "") && (jsNumberOfString cleaned).isSome && hasDigitChar cleaned
        && hasNonNumChar s
  | _ => false

/-- The candidate test of cleanAndNormalizeData for one field:
validValueCount > 0, numericLikeCount / validValueCount >= 0.8, and
some sampled value showed real dirt.  (The 0.8 comparison is exact
here; with a sample denominator of at most 100 the float division of
the source rounds identically.) -/
def fieldNeedsCleaning (data : List Row) (f : String) : Bool :=
  let vals := (sampleVals data f).filter jsValidVal
  decide (0 < vals.length)
    && decide (4 * vals.length ≤ 5 * vals.countP numericLikeVal)
    && vals.any dirtyVal

/-- The fields marked for cleaning. -/
def fieldsToClean (data : List Row) (fields : List String) : List String :=
  fields.filter (fieldNeedsCleaning data)

/-- The dataset-wide rewrite of one candidate field in one row: a
string cell whose strip to [0-9.-] is non-empty and Number-parseable is
replaced by that number, all other cells stay. -/
def cleanRowField (r : Row) (f : String) : Row :=
  match getVal r f with
  | some (.str s) =>
    let cleaned := stripNonNum s
    if !(cleaned = "") && (jsNumberOfString cleaned).isSome then
      assocSet r f (.num ((jsNumberOfString cleaned).getD ⟨0, 1⟩))
    else r
  | _ => r

/-- cleanAndNormalizeData: selects candidate fields from the sample and
rewrites them across the whole dataset (the source mutates in place;
here the rewritten rows are returned). -/
def cleanAndNormalizeData (data : List Row) (fields : List String) : List Row :=
  if data.length = 0 then data
  else
    let ftc := fieldsToClean data fields
    if ftc.length = 0 then data
    else data.map (fun r => ftc.foldl cleanRowField r)

/-! ### Type Inferencer (inferColumnTypes) -/

/-- The values of one field that inference looks at: null, undefined
and the empty string are skipped (note: only the EMPTY string, not
blank strings, unlike the cleaning pass). -/
def inferenceVals (sample : List Row) (f : String) : List (Option Value) :=
  (sample.map (fun r => getVal r f)).filter
    (fun ov => !(ov = none || ov = some .vnull || ov = some (.str "")))

/-- The per-value numeric test of inference: strip $ , % then trim;
the result must be non-empty and Number-parseable. -/
def numericCheckVal (ov : Option Value) : Bool :=
  let c := jsTrim (stripCurrencyMarks (jsString ov))
  !(c = "") && (jsNumberOfString c).isSome

/-- The per-value temporal test: raw numbers are excluded, everything
else must Date.parse; Date.parse is host defined and is therefore a
parameter. -/
def temporalCheckVal (dateParses : String → Bool) (ov : Option Value) : Bool :=
  (match ov with
   | some (.num _) => false
   | _ => true) && dateParses (jsString ov)

/-- Type of one field from the sample: numerical wins, then temporal,
then categorical by the uniqueness thresholds, else string.  (The 0.5
threshold is exact in a double and the ratio denominator is the sample
size <= 100, so the exact comparison matches the source.) -/
def inferFieldType (dateParses : String → Bool) (sample : List Row) (f : String) : String :=
  let vals := inferenceVals sample f
  let uniq := vals.dedup.length
  if vals.all numericCheckVal then "numerical"
  else if vals.all (temporalCheckVal dateParses) then "temporal"
  else if decide (2 * uniq < sample.length) && decide (uniq ≤ 50) then "categorical"
  else "string"

/-- inferColumnTypes: empty sample gives the empty map, otherwise one
entry per field over the first 100 rows. -/
def inferColumnTypes (dateParses : String → Bool) (data : List Row) (fields : List String) :
    List (String × String) :=
  let sample := data.take 100
  if sample.length = 0 then []
  else fields.map (fun f => (f, inferFieldType dateParses sample f))

/-! ### Column Resolver and Chart Data Preparer -/

/-- findMatchingColumn: a falsy candidate (absent or empty) resolves to
nothing, otherwise the first actual column equal up to trim and case. -/
def findMatchingColumn (aiColumnName : Option String) (actualColumns : List String) :
    Option String :=
  match aiColumnName with
  | none => none
  | some s =>
    if s = "" then none
    else actualColumns.find? (fun c => ciTrimEq c s)

/-- The chart intent consumed by prepareChartData. -/
structure ChartConfig where
  chartType : String
  xAxisColumn : Option String
  yAxisColumn : Option String
  categoryColumn : Option String
  valueColumn : Option String
  aggregation : Option String
deriving DecidableEq

/-- JS truthiness of an optional string (undefined and "" falsy). -/
def optTruthy : Option String → Bool
  | none => false
  | some s => !(s = "")

/-- The label column requested by the intent: categoryColumn for the
pie family, xAxisColumn otherwise. -/
def aiLabelColOf (cfg : ChartConfig) : Option String :=
  if cfg.chartType ∈ ["pie", "donut"] then cfg.categoryColumn else cfg.xAxisColumn

/-- The value column requested by the intent. -/
def aiValueColOf (cfg : ChartConfig) : Option String :=
  if cfg.chartType ∈ ["pie", "donut"] then cfg.valueColumn else cfg.yAxisColumn

/-- The resolved value column; count aggregation skips resolution. -/
def resolvedValueCol (cfg : ChartConfig) (fields : List String) : Option String :=
  if cfg.aggregation = some "count" then none
  else findMatchingColumn (aiValueColOf cfg) fields

/-- Numeric parse of the value cell used by all chart aggregations:
String(row[col]) with commas stripped, through parseFloat. -/
def parseCell (row : Row) (vc : Option String) : Option JsNum :=
  jsParseFloat (stripCommas (jsString (valueCell row vc)))

/-- One reduce step of the sum aggregation: rows with a falsy label or
an unparseable value contribute nothing. -/
def sumAggStep (lc : String) (vc : Option String)
    (acc : List (String × JsNum)) (row : Row) : List (String × JsNum) :=
  let k := getVal row lc
  if jsTruthy k then
    match parseCell row vc with
    | some v => assocSet acc (jsString k) (((assocGet acc (jsString k)).getD ⟨0, 1⟩) + v)
    | none => acc
  else acc

def sumAgg (data : List Row) (lc : String) (vc : Option String) : List (String × JsNum) :=
  data.foldl (sumAggStep lc vc) []

/-- One loop step of the average aggregation: sums and counts advance
together, only for truthy labels with parseable values. -/
def avgAggStep (lc : String) (vc : Option String)
    (acc : List (String × JsNum) × List (String × JsNum)) (row : Row) :
    List (String × JsNum) × List (String × JsNum) :=
  let k := getVal row lc
  if jsTruthy k then
    match parseCell row vc with
    | some v =>
      (assocSet acc.1 (jsString k) (((assocGet acc.1 (jsString k)).getD ⟨0, 1⟩) + v),
       assocSet acc.2 (jsString k) (((assocGet acc.2 (jsString k)).getD ⟨0, 1⟩) + ⟨1, 1⟩))
    | none => acc
  else acc

def avgAgg (data : List Row) (lc : String) (vc : Option String) : List (String × JsNum) :=
  let sc := data.foldl (avgAggStep lc vc) ([], [])
  sc.1.filterMap (fun kv =>
    match assocGet sc.2 kv.1 with
    | some c => if (⟨0, 1⟩ : JsNum) < c then some (kv.1, kv.2 / c) else none
    | none => none)

/-- One reduce step of the count aggregation: only label truthiness is
required. -/
def countAggStep (lc : String)
    (acc : List (String × JsNum)) (row : Row) : List (String × JsNum) :=
  let k := getVal row lc
  if jsTruthy k then
    assocSet acc (jsString k) (((assocGet acc (jsString k)).getD ⟨0, 1⟩) + ⟨1, 1⟩)
  else acc

def countAgg (data : List Row) (lc : String) : List (String × JsNum) :=
  data.foldl (countAggStep lc) []

/-- The aggregated label/value pairs of the categorical chart path,
selected exactly as the source does (sum and average additionally
require a truthy resolved value column, everything else falls back to
count). -/
def aggregatedOf (cfg : ChartConfig) (d : Dataset) (lc : String) : List (String × JsNum) :=
  let valueCol := resolvedValueCol cfg d.meta.fields
  if cfg.aggregation = some "average" && optTruthy valueCol then avgAgg d.data lc valueCol
  else if cfg.aggregation = some "sum" && optTruthy valueCol then sumAgg d.data lc valueCol
  else countAgg d.data lc

/-- Stable insertion of one item into a descending-by-value list: the
new item goes before the first strictly smaller value, after equal
ones already present from earlier positions.  JS Array.sort is stable
and the comparator (a, b) => b.value - a.value induces a total
preorder, so the sorted output of the source is exactly a stable
descending sort. -/
def insertDescByValue (x : String × JsNum) : List (String × JsNum) → List (String × JsNum)
  | [] => [x]
  | y :: t => if x.2 < y.2 then y :: insertDescByValue x t else x :: y :: t

/-- Stable descending-by-value sort modelling
allItems.sort(([,a],[,b]) => b - a). -/
def sortDescByValue : List (String × JsNum) → List (String × JsNum)
  | [] => []
  | x :: t => insertDescByValue x (sortDescByValue t)

/-- The sorted presentation list: categorical kinds sort by value
descending; sequential kinds delegate to the host dependent
date/locale comparator, taken as the parameter sortSeq; other kinds
are left as is. -/
def presentedItems (sortSeq : List (String × JsNum) → List (String × JsNum))
    (cfg : ChartConfig) (items : List (String × JsNum)) : List (String × JsNum) :=
  if cfg.chartType ∈ ["bar", "pie", "donut"] then sortDescByValue items
  else if cfg.chartType ∈ ["line", "area"] then sortSeq items
  else items

/-- Category collapsing: for categorical kinds with more than 20
groups, keep the first 19 of the sorted list and fold the rest into a
final synthetic Other group holding their sum. -/
def collapseCategories (cfg : ChartConfig) (allItems : List (String × JsNum)) :
    List String × List JsNum :=
  if cfg.chartType ∈ ["bar", "pie", "donut"] && decide (20 < allItems.length) then
    (((allItems.take 19).map Prod.fst) ++ ["Other"],
     ((allItems.take 19).map Prod.snd) ++
       [((allItems.drop 19).map Prod.snd).foldl (fun a b => a + b) ⟨0, 1⟩])
  else (allItems.map Prod.fst, allItems.map Prod.snd)

/-- The renderer-ready series emitted by prepareChartData. -/
inductive ChartSeries where
  | cat (labels : List String) (values : List JsNum)
  | scatterPts (points : List (JsNum × JsNum))
deriving DecidableEq

/-- Output of prepareChartData: series plus presentation metadata. -/
structure PreparedChart where
  series : ChartSeries
  titleX : Option String
  titleY : Option String
  datasetLabel : String
deriving DecidableEq

/-- prepareChartData either returns prepared data, throws an invalid
column error, or returns null for an unknown chart type. -/
inductive PrepResult where
  | ok (p : PreparedChart)
  | thrown (msg : String)
  | nullResult
deriving DecidableEq

/-- The y-axis title of the categorical path, chosen in the branch that
also picks the aggregation. -/
def catAxisTitleY (cfg : ChartConfig) (valueCol : Option String) : String :=
  if cfg.aggregation = some "average" && optTruthy valueCol then
    "Average of " ++ valueCol.getD ""
  else if cfg.aggregation = some "sum" && optTruthy valueCol then
    "Total " ++ valueCol.getD ""
  else "Count"

/-- The dataset label of the categorical path. -/
def catDatasetLabel (cfg : ChartConfig) (valueCol : Option String) : String :=
  if optTruthy valueCol then
    (if cfg.aggregation = some "average" then "Average of " ++ valueCol.getD ""
     else "Total " ++ valueCol.getD "")
  else "Count"

/-- prepareChartData over the active dataset (the sequential-kind label
comparator is the host dependent parameter sortSeq; column resolution,
aggregation, sorting, collapsing and the scatter path follow the
source). -/
def prepareChartData (sortSeq : List (String × JsNum) → List (String × JsNum))
    (cfg : ChartConfig) (d : Dataset) : PrepResult :=
  let actualColumns := d.meta.fields
  if cfg.chartType ∈ ["bar", "line", "area", "pie", "donut"] then
    match findMatchingColumn (aiLabelColOf cfg) actualColumns with
    | none =>
      .thrown ("Invalid column name for chart labels. Could not find a match for \"" ++
        (match aiLabelColOf cfg with | some s => s | none => "undefined") ++
        "\". Available columns are: [" ++ String.intercalate ", " actualColumns ++ "]")
    | some lc =>
      let valueCol := resolvedValueCol cfg actualColumns
      if !(cfg.aggregation = some "count") && !(optTruthy valueCol) then
        .thrown ("Invalid column name for chart values. Could not find a match for \"" ++
          (match aiValueColOf cfg with | some s => s | none => "undefined") ++
          "\". Available columns are: [" ++ String.intercalate ", " actualColumns ++ "]")
      else
        let allItems := presentedItems sortSeq cfg (aggregatedOf cfg d lc)
        let lv := collapseCategories cfg allItems
        .ok { series := .cat lv.1 lv.2
              titleX := some lc
              titleY := some (catAxisTitleY cfg valueCol)
              datasetLabel := catDatasetLabel cfg valueCol }
  else if cfg.chartType = "scatter" then
    match findMatchingColumn cfg.xAxisColumn actualColumns,
        findMatchingColumn cfg.yAxisColumn actualColumns with
    | some mx, some my =>
      let points := (d.data.map (fun row =>
          (jsParseFloat (stripCommas (jsString (getVal row mx))),
           jsParseFloat (stripCommas (jsString (getVal row my)))))).filterMap
        (fun p =>
          match p with
          | (some x, some y) => some (x, y)
          | _ => none)
      .ok { series := .scatterPts points
            titleX := some mx
            titleY := some my
            datasetLabel := my ++ " vs " ++ mx }
    | _, _ => .thrown "Invalid column names for scatter plot."
  else .nullResult

/-- Accessor for the series of a successful preparation. -/
def seriesOf : PrepResult → Option ChartSeries
  | .ok p => some p.series
  | _ => none

/-! ### Reference-store model of row ownership

To express aliasing between the Master dataset, the Active View of
applyFilters and the scratch copy of executeAnalysisPlan, rows live in
an explicit store and datasets hold row references (JS object
references become store indices).  Mutating a row object is updating
the store at its index. -/

/-- A dataset referencing its row objects through store indices. -/
structure RefDataset where
  rowRefs : List Nat
  fields : List String
deriving DecidableEq

/-- Dereferences one row object. -/
def readRow (store : List Row) (i : Nat) : Row :=
  store.getD i []

/-- The observable rows of a dataset under a store. -/
def readRows (store : List Row) (d : RefDataset) : List Row :=
  d.rowRefs.map (readRow store)

/-- Mutation of one row object in place. -/
def setRow (store : List Row) (i : Nat) (r : Row) : List Row :=
  store.set i r

/-- applyFilters with a non-empty active filter list: the view keeps
the row references of master that satisfy every filter under
String(row[column]) === String(value) — a new top-level array over the
same row objects ({ ...originalData, data: filteredRows } copies no
row and shares meta). -/
def applyFiltersRefs (store : List Row) (master : RefDataset) (filters : List AppFilter) :
    RefDataset :=
  { master with
    rowRefs := filters.foldl
      (fun refs flt => refs.filter
        (fun i => jsString (getVal (readRow store i) flt.column) = flt.value))
      master.rowRefs }

/-- The deep copy taken by executeAnalysisPlan
(JSON.parse(JSON.stringify(activeData))): every referenced row is
copied into fresh store cells and the copy references only those. -/
def deepCopyRefs (store : List Row) (d : RefDataset) : List Row × RefDataset :=
  (store ++ readRows store d,
   { d with rowRefs := List.range' store.length d.rowRefs.length })

/-! ### Concrete data used by the verification witnesses -/

/-- A tiny two-row dataset over one column a. -/
def twoRowData : Dataset :=
  { data := [[("a", .str "1")], [("a", .str "2")]],
    meta := { fields := ["a"], inferredTypes := [("a", "numerical")] } }

/-- The aggregate-correctness rows of the specification. -/
def aggExampleData : Dataset :=
  { data := [[("g", .str "A"), ("v", .str "10")],
             [("g", .str "A"), ("v", .str "20")],
             [("g", .str "B"), ("v", .str "5")]],
    meta := { fields := ["g", "v"], inferredTypes := [] } }

/-- 25 one-row groups g1 .. g25 with values 1 .. 25. -/
def groups25Data : Dataset :=
  { data := (List.range 25).map (fun i =>
      [("g", .str ("g" ++ toString (i + 1))), ("v", .str (toString (i + 1)))]),
    meta := { fields := ["g", "v"], inferredTypes := [] } }

/-- A bar chart intent summing v by g. -/
def barSumConfig : ChartConfig :=
  { chartType := "bar", xAxisColumn := some "g", yAxisColumn := some "v",
    categoryColumn := none, valueColumn := none, aggregation := some "sum" }

/-- An already-clean number cell in the sense of the cleaning pass: a
number, or a string that Number() accepts with a non-blank trim (the
first branch of the sampling loop). -/
def cleanNumberVal (ov : Option Value) : Bool :=
  match ov with
  | some (.num _) => true
  | some (.str s) => (jsNumberOfString s).isSome && !(jsTrim s = "")
  | _ => false

/-- Rows whose g label exercises every falsy shape (empty string, the
number 0, null, absent) plus one truthy row. -/
def falsyLabelData : Dataset :=
  { data := [[("g", .str ""), ("v", .str "10")],
             [("g", .num 0), ("v", .str "7")],
             [("g", .vnull), ("v", .str "3")],
             [("v", .str "9")],
             [("g", .str "A"), ("v", .str "2")]],
    meta := { fields := ["g", "v"], inferredTypes := [] } }

/-! ## Helper lemmas -/

theorem assocGet_mapSet_ne {α : Type} (l : List (String × α)) (k k2 : String) (v : α)
    (h : k ≠ k2) :
    assocGet (l.map (fun kv => if kv.1 = k then (k, v) else kv)) k2 = assocGet l k2 := by
  induction l with
  | nil => rfl
  | cons a t ih =>
    simp only [List.map_cons]
    by_cases h1 : a.1 = k
    · rw [if_pos h1]
      have h2 : ¬ a.1 = k2 := by rw [h1]; exact h
      simp only [assocGet]
      rw [if_neg h, if_neg h2]
      exact ih
    · rw [if_neg h1]
      simp only [assocGet]
      by_cases h2 : a.1 = k2
      · rw [if_pos h2, if_pos h2]
      · rw [if_neg h2, if_neg h2]
        exact ih

theorem assocGet_append_single_ne {α : Type} (l : List (String × α)) (k k2 : String) (v : α)
    (h : k ≠ k2) :
    assocGet (l ++ [(k, v)]) k2 = assocGet l k2 := by
  induction l with
  | nil => simp [assocGet, h]
  | cons a t ih =>
    by_cases h1 : a.1 = k2 <;> simp [assocGet, h1, ih]

theorem assocGet_assocSet_ne {α : Type} (l : List (String × α)) (k k2 : String) (v : α)
    (h : k ≠ k2) : assocGet (assocSet l k v) k2 = assocGet l k2 := by
  unfold assocSet
  split
  · exact assocGet_mapSet_ne l k k2 v h
  · exact assocGet_append_single_ne l k k2 v h

theorem getVal_cleanRowField_ne (r : Row) (g f : String) (h : g ≠ f) :
    getVal (cleanRowField r g) f = getVal r f := by
  unfold cleanRowField
  split
  · dsimp only
    split
    · exact assocGet_assocSet_ne _ _ _ _ h
    · rfl
  · rfl

theorem getVal_foldl_cleanRowField (ftc : List String) (r : Row) (f : String)
    (h : f ∉ ftc) :
    getVal (ftc.foldl cleanRowField r) f = getVal r f := by
  induction ftc generalizing r with
  | nil => rfl
  | cons g t ih =>
    have hgf : g ≠ f := fun hh => h (hh ▸ List.mem_cons_self g t)
    have hft : f ∉ t := fun hh => h (List.mem_cons_of_mem g hh)
    calc getVal ((g :: t).foldl cleanRowField r) f
        = getVal (t.foldl cleanRowField (cleanRowField r g)) f := rfl
      _ = getVal (cleanRowField r g) f := ih (cleanRowField r g) hft
      _ = getVal r f := getVal_cleanRowField_ne r g f hgf

theorem foldl_filter_skip {α β : Type} (f : β → α → β) (p : α → Bool) (l : List α)
    (h : ∀ a ∈ l, p a = false → ∀ b, f b a = b) :
    ∀ init : β, (l.filter p).foldl f init = l.foldl f init := by
  induction l with
  | nil => intro init; rfl
  | cons a t ih =>
    intro init
    have ht : ∀ x ∈ t, p x = false → ∀ b, f b x = b :=
      fun x hx => h x (List.mem_cons_of_mem a hx)
    by_cases hp : p a = true
    · simp only [List.filter_cons, hp, if_pos, List.foldl_cons]
      exact ih ht (f init a)
    · have hp2 : p a = false := Bool.eq_false_iff.mpr hp
      simp only [List.filter_cons, hp2, Bool.false_eq_true, if_neg, List.foldl_cons,
        h a (List.mem_cons_self a t) hp2 init]
      exact ih ht init

theorem assocGet_map_pair {α : Type} (fields : List String) (fn : String → α) (f : String)
    (hf : f ∈ fields) :
    assocGet (fields.map (fun g => (g, fn g))) f = some (fn f) := by
  induction fields with
  | nil => cases hf
  | cons a t ih =>
    by_cases h1 : a = f
    · subst h1; simp [assocGet]
    · have : f ∈ t := by
        rcases List.mem_cons.mp hf with h2 | h2
        · exact absurd h2.symm h1
        · exact h2
      simp [assocGet, h1, ih this]

/-! ## Claim C1 -/

/-- Claim C1: a failed applyTransformation — in particular a
create_column whose newColumn already exists in the field list —
returns a failure result carrying a message and no dataset, and the
caller state update then leaves the session (master dataset with its
field list, rows, row count and inferred types, active view, filters)
completely unchanged. -/
theorem c1_failed_transform_atomic :
    (∀ (config : TransformConfig) (st : SessionState) (m : String),
      applyTransformation config st.originalData = .err m →
      handleTransformationUpdate config st = st) ∧
    (∀ (e : Option String) (p : CreateColumnParams) (src : Dataset),
      p.newColumn ∈ src.meta.fields →
      applyTransformation (.createColumn e p) src =
        .err ("Column \"" ++ p.newColumn ++ "\" already exists.")) := by
  constructor
  · intro config st m h
    unfold handleTransformationUpdate
    rw [h]
  · intro e p src h
    simp only [applyTransformation]
    rw [if_pos h]

/-- Witness for C1 at a concrete duplicate create_column. -/
theorem c1_witness :
    applyTransformation (.createColumn none ⟨"a", "a", "add", "a"⟩) twoRowData =
      .err ("Column \"" ++ "a" ++ "\" already exists.") ∧
    handleTransformationUpdate (.createColumn none ⟨"a", "a", "add", "a"⟩)
      ⟨twoRowData, twoRowData, [], false⟩ = ⟨twoRowData, twoRowData, [], false⟩ :=
  ⟨c1_failed_transform_atomic.2 none ⟨"a", "a", "add", "a"⟩ twoRowData (by decide),
   c1_failed_transform_atomic.1 _ ⟨twoRowData, twoRowData, [], false⟩
     ("Column \"" ++ "a" ++ "\" already exists.") (by decide)⟩

/-! ## Claim C2 -/

/-- Claim C2 counterexample: with the single condition (a equals "1")
on the rows [{a:"1"}, {a:"2"}], the source removes the row SATISFYING
the condition and keeps the row failing it — the opposite of dropping
the rows that fail the conjunction, which would have kept [{a:"1"}]. -/
theorem c2_counterexample :
    checkCondition [("a", Value.str "1")] ⟨"a", "equals", Value.str "1"⟩ = true ∧
    checkCondition [("a", Value.str "2")] ⟨"a", "equals", Value.str "1"⟩ = false ∧
    (transformRemoveRows twoRowData [⟨"a", "equals", Value.str "1"⟩]).data =
      [[("a", Value.str "2")]] := by decide

/-- Claim C2 (amended): for every dataset and non-empty condition
list, remove_rows drops exactly the rows SATISFYING the conjunction of
the conditions and keeps the rows failing it; greater_than/less_than
coerce both sides via numeric parse with thousands-separator
stripping, and a row whose operand is unparseable makes that numeric
condition evaluate false without crashing. -/
theorem c2_amended_remove_rows (d : Dataset) (conds : List RemoveCondition)
    (hne : conds ≠ []) :
    (transformRemoveRows d conds).meta = d.meta ∧
    (∀ row : Row, row ∈ (transformRemoveRows d conds).data ↔
      row ∈ d.data ∧ ¬ (∀ c ∈ conds, checkCondition row c = true)) ∧
    (∀ (row : Row) (c : RemoveCondition),
      (c.operator = "greater_than" ∨ c.operator = "less_than") →
      jsParseFloat (stripCommas (jsString (getVal row c.column))) = none →
      checkCondition row c = false) := by
  refine ⟨rfl, ?_, ?_⟩
  · intro row
    unfold transformRemoveRows
    simp [List.mem_filter, List.all_eq_true]
  · intro row c hop hparse
    rcases hcell : getVal row c.column with _ | v
    · unfold checkCondition
      rw [hcell]
    · have hv : jsParseFloat (stripCommas (jsValueToString v)) = none := by
        rw [hcell] at hparse
        exact hparse
      have h1 : ¬ c.operator = "equals" := by
        rcases hop with h | h <;> rw [h] <;> decide
      have h2 : ¬ c.operator = "not_equals" := by
        rcases hop with h | h <;> rw [h] <;> decide
      unfold checkCondition
      rw [hcell]
      simp only [h1, h2, if_neg, if_false]
      rcases hop with h | h <;> simp [h, hv]

/-- Witness for C2 (amended) at the concrete two-row dataset. -/
theorem c2_witness :
    [("a", Value.str "2")] ∈
        (transformRemoveRows twoRowData [⟨"a", "equals", Value.str "1"⟩]).data ↔
      ([("a", Value.str "2")] ∈ twoRowData.data ∧
        ¬ (∀ c ∈ [(⟨"a", "equals", Value.str "1"⟩ : RemoveCondition)],
            checkCondition [("a", Value.str "2")] c = true)) :=
  (c2_amended_remove_rows twoRowData [⟨"a", "equals", Value.str "1"⟩] (by decide)).2.1
    [("a", Value.str "2")]

/-! ## Claim C9 -/

/-- Claim C9 (implicit): after any successful transformation the
master dataset and the active view are the same new dataset, the
active filter list is empty and the filtered-state flag is cleared
(given the standing invariant that the flag is only set while some
filter is active). -/
theorem c9_transform_clears_filters (config : TransformConfig) (st : SessionState)
    (m : String) (nd : Dataset)
    (hsucc : applyTransformation config st.originalData = .ok m nd)
    (hinv : st.isFilteredState = true → st.activeFilters ≠ []) :
    handleTransformationUpdate config st =
      { originalData := nd, activeData := nd, activeFilters := [], isFilteredState := false } := by
  unfold handleTransformationUpdate
  rw [hsucc]
  rcases hfl : st.activeFilters with _ | ⟨a, t⟩
  · have hfalse : st.isFilteredState = false := by
      rcases hb : st.isFilteredState
      · rfl
      · exact absurd hfl (hinv hb)
    simp [hfl, hfalse]
  · simp [hfl]

/-- Witness for C9 at a concrete successful remove_rows with an active
filter present. -/
theorem c9_witness :
    handleTransformationUpdate (.removeRows none [⟨"a", "equals", Value.str "zzz"⟩])
      ⟨twoRowData, twoRowData, [⟨"a", "1"⟩], true⟩ =
      { originalData := twoRowData, activeData := twoRowData,
        activeFilters := [], isFilteredState := false } :=
  c9_transform_clears_filters (.removeRows none [⟨"a", "equals", Value.str "zzz"⟩])
    ⟨twoRowData, twoRowData, [⟨"a", "1"⟩], true⟩
    ("Removed " ++ toString 0 ++ " row(s). " ++ "Transformation applied.") twoRowData
    (by decide) (by decide)

/-! ## Claim C8 -/

theorem mem_dedupFiltersAux (t : List AppFilter) :
    ∀ (seen : List AppFilter) (g : AppFilter), g ∈ dedupFiltersAux seen t →
      seen.any (fun x => filterKeyEq x g) = false := by
  induction t with
  | nil => intro seen g hg; cases hg
  | cons f t ih =>
    intro seen g hg
    unfold dedupFiltersAux at hg
    by_cases hdup : (seen.any fun x => filterKeyEq x f) = true
    · rw [if_pos hdup] at hg
      exact ih seen g hg
    · rw [if_neg hdup] at hg
      rcases List.mem_cons.mp hg with h1 | h1
      · subst h1
        exact Bool.eq_false_iff.mpr hdup
      · have happ := ih (seen ++ [f]) g h1
        rw [List.any_append] at happ
        exact (Bool.or_eq_false_iff.mp happ).1

theorem pairwise_dedupFiltersAux (t : List AppFilter) :
    ∀ seen : List AppFilter,
      (dedupFiltersAux seen t).Pairwise (fun a b => filterKeyEq a b = false) := by
  induction t with
  | nil => intro seen; exact List.Pairwise.nil
  | cons f t ih =>
    intro seen
    unfold dedupFiltersAux
    by_cases hdup : (seen.any fun x => filterKeyEq x f) = true
    · rw [if_pos hdup]
      exact ih seen
    · rw [if_neg hdup]
      refine List.Pairwise.cons ?_ (ih (seen ++ [f]))
      intro g hg
      have happ := mem_dedupFiltersAux t (seen ++ [f]) g hg
      rw [List.any_append] at happ
      have hsingle := (Bool.or_eq_false_iff.mp happ).2
      simpa using hsingle

/-- Claim C8: staging a filter whose column and value already match an
existing staged or active filter changes nothing (rejected silently);
staging preserves the no-duplicates invariant of the staged set;
committing staged filters into the active set deduplicates by
column+value; and staging {x, a} twice from scratch yields exactly one
staged entry. -/
theorem c8_filter_dedup :
    (∀ (st : FilterState) (f : AppFilter),
      (st.staged.any (fun g => filterKeyEq g f) = true ∨
        st.active.any (fun g => filterKeyEq g f) = true) →
      stageFilter st f = st) ∧
    (∀ (st : FilterState) (f : AppFilter),
      filtersNodup st.staged → filtersNodup (stageFilter st f).staged) ∧
    (∀ st : FilterState, filtersNodup (applyStagedToActive st).active) ∧
    (stageFilter (stageFilter ⟨[], []⟩ ⟨"x", "a"⟩) ⟨"x", "a"⟩).staged =
      [(⟨"x", "a"⟩ : AppFilter)] := by
  refine ⟨?_, ?_, ?_, by decide⟩
  · intro st f h
    unfold stageFilter
    rcases h with h | h <;> rw [h] <;> simp
  · intro st f hnd
    unfold stageFilter
    by_cases hc : (!st.staged.any (fun g => filterKeyEq g f) &&
        !st.active.any (fun g => filterKeyEq g f)) = true
    · rw [if_pos hc]
      have hstaged : st.staged.any (fun g => filterKeyEq g f) = false := by
        simp only [Bool.and_eq_true, Bool.not_eq_true'] at hc
        exact hc.1
      refine List.pairwise_append.mpr ⟨hnd, List.pairwise_singleton _ _, ?_⟩
      intro a ha b hb
      rcases List.mem_singleton.mp hb
      exact Bool.eq_false_iff.mpr (List.any_eq_false.mp hstaged a ha)
    · rw [if_neg hc]
      exact hnd
  · intro st
    exact pairwise_dedupFiltersAux _ []

/-- Witness for C8: a filter equal to an already-staged one is
rejected silently. -/
theorem c8_witness :
    stageFilter ⟨[⟨"x", "a"⟩], []⟩ ⟨"x", "a"⟩ = ⟨[⟨"x", "a"⟩], []⟩ :=
  c8_filter_dedup.1 ⟨[⟨"x", "a"⟩], []⟩ ⟨"x", "a"⟩ (Or.inl (by decide))

/-! ## Claim C3 -/

/-- Claim C3: executeAggregate emits a brand-new two-column dataset
whose fields are [groupBy, aggregation_(valueColumn|count)]; a row
whose numeric cell is unparseable leaves the group sum unchanged while
still incrementing the group count; the average of a group with zero
count is 0; and on the specification rows, sum of v grouped by g
yields exactly the groups {g:"A", sum_v:30} and {g:"B", sum_v:5}. -/
theorem c3_aggregate :
    (∀ (d : Dataset) (p : AggParams),
      (executeAggregate d p).meta.fields = [p.groupBy, aggColumnName p]) ∧
    (∀ (p : AggParams) (groups : List (String × (JsNum × Nat))) (row : Row) (v : Value),
      (!(p.aggregation = "count")) = true →
      getVal row p.groupBy = some v → v ≠ .vnull →
      jsParseFloat (stripCommas (jsString (valueCell row p.valueColumn))) = none →
      aggStep p groups row =
        assocSet groups (jsValueToString v)
          (((assocGet groups (jsValueToString v)).getD (⟨0, 1⟩, 0)).1,
            ((assocGet groups (jsValueToString v)).getD (⟨0, 1⟩, 0)).2 + 1)) ∧
    (∀ s : JsNum, finalizeGroup "average" (s, 0) = ⟨0, 1⟩) ∧
    ((executeAggregate aggExampleData ⟨"g", "sum", some "v"⟩).data =
      [[("g", Value.str "A"), ("sum_v", Value.num 30)],
       [("g", Value.str "B"), ("sum_v", Value.num 5)]]) := by
  refine ⟨fun d p => rfl, ?_, fun s => rfl, by decide⟩
  intro p groups row v h1 h2 hv h3
  unfold aggStep
  rw [h2]
  rcases v with q | s | _
  · dsimp only
    rw [if_pos h1, h3]
  · dsimp only
    rw [if_pos h1, h3]
  · exact absurd rfl hv

/-- Witness for C3: an unparseable cell under average keeps the sum
and bumps the count of its group. -/
theorem c3_witness :
    aggStep ⟨"g", "average", some "v"⟩ [] [("g", Value.str "X"), ("v", Value.str "oops")] =
      assocSet [] "X"
        (((assocGet ([] : List (String × (JsNum × Nat))) "X").getD (⟨0, 1⟩, 0)).1,
          ((assocGet ([] : List (String × (JsNum × Nat))) "X").getD (⟨0, 1⟩, 0)).2 + 1) :=
  c3_aggregate.2.1 ⟨"g", "average", some "v"⟩ []
    [("g", Value.str "X"), ("v", Value.str "oops")] (Value.str "X")
    (by decide) (by decide) (by decide) (by decide)

/-! ## Claim C4 -/

theorem cleanCol_unchanged_of_not_needed (data : List Row) (fields : List String)
    (f : String) (h : fieldNeedsCleaning data f = false) :
    (cleanAndNormalizeData data fields).map (fun r => getVal r f) =
      data.map (fun r => getVal r f) := by
  have hnotmem : f ∉ fieldsToClean data fields := by
    intro hmem
    have hpred := (List.mem_filter.mp hmem).2
    rw [h] at hpred
    exact absurd hpred (by decide)
  unfold cleanAndNormalizeData
  split
  · rfl
  · dsimp only
    split
    · rfl
    · rw [List.map_map]
      refine List.map_congr_left ?_
      intro r hr
      exact getVal_foldl_cleanRowField _ r f hnotmem

theorem dirtyVal_eq_false_of_clean (ov : Option Value) (h : cleanNumberVal ov = true) :
    dirtyVal ov = false := by
  rcases ov with _ | v
  · cases h
  · rcases v with q | s | _
    · rfl
    · dsimp only [cleanNumberVal] at h
      dsimp only [dirtyVal]
      rw [if_pos h]
    · cases h

/-- Claim C4: the normalizer rewrites a column only when at least 80
percent of its valid (non-empty) sampled values are numeric-like AND
some sampled value contained real dirt — a character outside [0-9.-]
stripped from an otherwise numeric string; consequently a column of
already-clean numbers is never altered, while ["$1,200", "$950"]
becomes the numbers [1200, 950]. -/
theorem c4_normalizer :
    (∀ (data : List Row) (fields : List String) (f : String),
      (cleanAndNormalizeData data fields).map (fun r => getVal r f) ≠
        data.map (fun r => getVal r f) →
      (0 < ((sampleVals data f).filter jsValidVal).length ∧
        4 * ((sampleVals data f).filter jsValidVal).length ≤
          5 * ((sampleVals data f).filter jsValidVal).countP numericLikeVal) ∧
      ∃ ov ∈ (sampleVals data f).filter jsValidVal, dirtyVal ov = true) ∧
    (∀ (data : List Row) (fields : List String) (f : String),
      (∀ ov ∈ sampleVals data f, jsValidVal ov = true → cleanNumberVal ov = true) →
      (cleanAndNormalizeData data fields).map (fun r => getVal r f) =
        data.map (fun r => getVal r f)) ∧
    (cleanAndNormalizeData [[("p", Value.str "$1,200")], [("p", Value.str "$950")]] ["p"] =
      [[("p", Value.num 1200)], [("p", Value.num 950)]]) ∧
    (cleanAndNormalizeData
        [[("n", Value.num 1)], [("n", Value.num 2)], [("n", Value.num 3)]] ["n"] =
      [[("n", Value.num 1)], [("n", Value.num 2)], [("n", Value.num 3)]]) ∧
    (cleanAndNormalizeData
        [[("n", Value.str "1")], [("n", Value.str "2")], [("n", Value.str "3")]] ["n"] =
      [[("n", Value.str "1")], [("n", Value.str "2")], [("n", Value.str "3")]]) := by
  refine ⟨?_, ?_, by decide, by decide, by decide⟩
  · intro data fields f hne
    by_cases hC : fieldNeedsCleaning data f = true
    · unfold fieldNeedsCleaning at hC
      simp only [Bool.and_eq_true, decide_eq_true_eq, List.any_eq_true] at hC
      exact ⟨⟨hC.1.1, hC.1.2⟩, hC.2⟩
    · exact absurd (cleanCol_unchanged_of_not_needed data fields f
        (Bool.eq_false_iff.mpr hC)) hne
  · intro data fields f hclean
    refine cleanCol_unchanged_of_not_needed data fields f ?_
    have hdirty : ((sampleVals data f).filter jsValidVal).any dirtyVal = false := by
      refine List.any_eq_false.mpr ?_
      intro ov hov
      have hmem := List.mem_filter.mp hov
      rw [dirtyVal_eq_false_of_clean ov (hclean ov hmem.1 hmem.2)]
      decide
    unfold fieldNeedsCleaning
    dsimp only
    rw [hdirty]
    simp

/-- Witness for C4 at the concrete dirty currency column. -/
theorem c4_witness :
    (0 < ((sampleVals [[("p", Value.str "$1,200")], [("p", Value.str "$950")]] "p").filter
        jsValidVal).length ∧
      4 * ((sampleVals [[("p", Value.str "$1,200")], [("p", Value.str "$950")]] "p").filter
          jsValidVal).length ≤
        5 * ((sampleVals [[("p", Value.str "$1,200")], [("p", Value.str "$950")]] "p").filter
          jsValidVal).countP numericLikeVal) ∧
    ∃ ov ∈ (sampleVals [[("p", Value.str "$1,200")], [("p", Value.str "$950")]] "p").filter
        jsValidVal, dirtyVal ov = true :=
  c4_normalizer.1 [[("p", Value.str "$1,200")], [("p", Value.str "$950")]] ["p"] "p"
    (by decide)

/-! ## Claim C6 -/

/-- Claim C6 counterexample: on the empty dataset the claim hypothesis
holds vacuously (the bounded sample holds no values at all), yet
inferColumnTypes returns the empty map, so the field is not classified
numerical as the claim demands for every dataset. -/
theorem c6_counterexample :
    (([] : List Row).take 100 = []) ∧
    inferColumnTypes (fun _ => true) ([] : List Row) ["y"] = [] ∧
    assocGet (inferColumnTypes (fun _ => true) ([] : List Row) ["y"]) "y" ≠
      some "numerical" := by
  decide

/-- Claim C6 (amended): provided the dataset has at least one row, a
field all of whose non-skipped sampled values (first 100 rows) parse
as numbers after stripping currency, percent and thousands-separator
marks is classified numerical and never temporal, whatever the host
date parser accepts — in particular when every value would also parse
as a calendar date, such as bare year strings. -/
theorem c6_amended_numeric_precedence (dateParses : String → Bool)
    (data : List Row) (fields : List String) (f : String)
    (hf : f ∈ fields) (hdata : data ≠ [])
    (hnum : ∀ ov ∈ inferenceVals (data.take 100) f, numericCheckVal ov = true) :
    assocGet (inferColumnTypes dateParses data fields) f = some "numerical" ∧
    assocGet (inferColumnTypes dateParses data fields) f ≠ some "temporal" := by
  have hlen : ¬ (data.take 100).length = 0 := by
    rw [List.length_take]
    rcases data with _ | ⟨a, t⟩
    · exact absurd rfl hdata
    · simp only [List.length_cons]
      omega
  have hty : inferFieldType dateParses (data.take 100) f = "numerical" := by
    unfold inferFieldType
    dsimp only
    rw [if_pos (List.all_eq_true.mpr hnum)]
  have hget : assocGet (inferColumnTypes dateParses data fields) f = some "numerical" := by
    unfold inferColumnTypes
    dsimp only
    rw [if_neg hlen, assocGet_map_pair fields _ f hf, hty]
  refine ⟨hget, ?_⟩
  rw [hget]
  decide

/-- Witness for C6 (amended): a bare-year column is numerical even
when the date parser accepts everything. -/
theorem c6_witness :
    assocGet (inferColumnTypes (fun _ => true) [[("y", Value.str "2023")]] ["y"]) "y" =
      some "numerical" :=
  (c6_amended_numeric_precedence (fun _ => true) [[("y", Value.str "2023")]] ["y"] "y"
    (by decide) (by decide) (by decide)).1

/-! ## Claim C5 -/

/-- Claim C5 counterexample: with one master row {a:"1"} and the
active filter a = "1", the Active View built by applyFilters
references the very row object of Master (the same store index), and
mutating that row through the view changes the observable rows of
Master — the Active View aliases the row storage of Master. -/
theorem c5_counterexample :
    (applyFiltersRefs [[("a", Value.str "1")]] ⟨[0], ["a"]⟩ [⟨"a", "1"⟩]).rowRefs =
      (⟨[0], ["a"]⟩ : RefDataset).rowRefs ∧
    readRows (setRow [[("a", Value.str "1")]] 0 [("a", Value.str "X")]) ⟨[0], ["a"]⟩ ≠
      readRows [[("a", Value.str "1")]] ⟨[0], ["a"]⟩ := by
  decide

/-- Claim C5 (amended): the scratch copy taken by plan execution is a
true deep copy — every row reference of the copy is fresh, so
mutating any row object of the copy leaves the observable rows of
Master exactly as they were.  (The Active View of applyFilters, by
contrast, shares its row objects and metadata with Master; only its
top-level rows array is fresh — see the counterexample.) -/
theorem c5_amended_deep_copy (store : List Row) (master : RefDataset)
    (hwf : ∀ i ∈ master.rowRefs, i < store.length)
    (j : Nat) (hj : j ∈ (deepCopyRefs store master).2.rowRefs) (r : Row) :
    readRows (setRow (deepCopyRefs store master).1 j r) master = readRows store master := by
  have hjge : store.length ≤ j := by
    unfold deepCopyRefs at hj
    dsimp only at hj
    exact (List.mem_range'_1.mp hj).1
  unfold readRows
  refine List.map_congr_left ?_
  intro i hi
  have hilt : i < store.length := hwf i hi
  have hne : j ≠ i := Nat.ne_of_gt (Nat.lt_of_lt_of_le hilt hjge)
  unfold setRow readRow deepCopyRefs
  dsimp only
  rw [List.getD_eq_getElem?_getD, List.getD_eq_getElem?_getD,
    List.getElem?_set_ne hne, List.getElem?_append, if_pos hilt]

/-- Witness for C5 (amended) at a one-row master and its deep copy. -/
theorem c5_witness :
    readRows
        (setRow (deepCopyRefs [[("a", Value.str "1")]] ⟨[0], ["a"]⟩).1 1
          [("a", Value.str "X")])
        ⟨[0], ["a"]⟩ =
      readRows [[("a", Value.str "1")]] ⟨[0], ["a"]⟩ :=
  c5_amended_deep_copy [[("a", Value.str "1")]] ⟨[0], ["a"]⟩ (by decide) 1 (by decide)
    [("a", Value.str "X")]

/-! ## Claim C10 -/

theorem sumAggStep_falsy (lc : String) (vc : Option String) (acc : List (String × JsNum))
    (row : Row) (h : jsTruthy (getVal row lc) = false) :
    sumAggStep lc vc acc row = acc := by
  unfold sumAggStep
  dsimp only
  rw [h]
  rfl

theorem avgAggStep_falsy (lc : String) (vc : Option String)
    (acc : List (String × JsNum) × List (String × JsNum))
    (row : Row) (h : jsTruthy (getVal row lc) = false) :
    avgAggStep lc vc acc row = acc := by
  unfold avgAggStep
  dsimp only
  rw [h]
  rfl

theorem countAggStep_falsy (lc : String) (acc : List (String × JsNum))
    (row : Row) (h : jsTruthy (getVal row lc) = false) :
    countAggStep lc acc row = acc := by
  unfold countAggStep
  dsimp only
  rw [h]
  rfl

theorem sumAgg_filter_truthy (data : List Row) (lc : String) (vc : Option String) :
    sumAgg (data.filter (fun r => jsTruthy (getVal r lc))) lc vc = sumAgg data lc vc := by
  unfold sumAgg
  exact foldl_filter_skip (sumAggStep lc vc) _ data
    (fun row _ hfalse b => sumAggStep_falsy lc vc b row hfalse) []

theorem avgAgg_filter_truthy (data : List Row) (lc : String) (vc : Option String) :
    avgAgg (data.filter (fun r => jsTruthy (getVal r lc))) lc vc = avgAgg data lc vc := by
  unfold avgAgg
  rw [foldl_filter_skip (avgAggStep lc vc) _ data
    (fun row _ hfalse b => avgAggStep_falsy lc vc b row hfalse) ([], [])]

theorem countAgg_filter_truthy (data : List Row) (lc : String) :
    countAgg (data.filter (fun r => jsTruthy (getVal r lc))) lc = countAgg data lc := by
  unfold countAgg
  exact foldl_filter_skip (countAggStep lc) _ data
    (fun row _ hfalse b => countAggStep_falsy lc b row hfalse) []

theorem aggregatedOf_filter_truthy (cfg : ChartConfig) (d : Dataset) (lc : String) :
    aggregatedOf cfg { d with data := d.data.filter (fun r => jsTruthy (getVal r lc)) } lc =
      aggregatedOf cfg d lc := by
  unfold aggregatedOf
  dsimp only
  by_cases h1 : (cfg.aggregation = some "average" &&
      optTruthy (resolvedValueCol cfg d.meta.fields)) = true
  · rw [if_pos h1, if_pos h1, avgAgg_filter_truthy]
  · rw [if_neg h1, if_neg h1]
    by_cases h2 : (cfg.aggregation = some "sum" &&
        optTruthy (resolvedValueCol cfg d.meta.fields)) = true
    · rw [if_pos h2, if_pos h2, sumAgg_filter_truthy]
    · rw [if_neg h2, if_neg h2, countAgg_filter_truthy]

/-- Claim C10 (implicit): in the dataset path of the Chart Data
Preparer, every row whose label-column value is falsy (empty string,
the number 0, null, or absent/undefined) is excluded from the
aggregation in all three modes — sum, average and count — so the
prepared chart is identical to the one computed after deleting those
rows, and such a group never appears as a chart label. -/
theorem c10_falsy_labels_excluded
    (sortSeq : List (String × JsNum) → List (String × JsNum))
    (cfg : ChartConfig) (d : Dataset) (lc : String)
    (hct : cfg.chartType ∈ ["bar", "line", "area", "pie", "donut"])
    (hl : findMatchingColumn (aiLabelColOf cfg) d.meta.fields = some lc) :
    prepareChartData sortSeq cfg d =
      prepareChartData sortSeq cfg
        { d with data := d.data.filter (fun r => jsTruthy (getVal r lc)) } := by
  unfold prepareChartData
  dsimp only
  rw [if_pos hct, hl]
  dsimp only
  rw [aggregatedOf_filter_truthy, if_pos hct]

/-- Witness for C10: dropping the falsy-label rows of a concrete
dataset leaves the prepared chart unchanged. -/
theorem c10_witness :
    prepareChartData id barSumConfig falsyLabelData =
      prepareChartData id barSumConfig
        { falsyLabelData with
          data := falsyLabelData.data.filter (fun r => jsTruthy (getVal r "g")) } :=
  c10_falsy_labels_excluded id barSumConfig falsyLabelData "g" (by decide) (by decide)

/-! ## Claim C7 -/

/-- Claim C7: for every bar/pie/donut chart whose aggregation yields
more than 20 distinct groups, the prepared series holds exactly the
top 19 groups taken after the descending-by-value sort plus one final
synthetic Other label whose value is the sum of all remaining
groups. -/
theorem c7_category_collapsing
    (sortSeq : List (String × JsNum) → List (String × JsNum))
    (cfg : ChartConfig) (d : Dataset) (lc : String)
    (hct : cfg.chartType ∈ ["bar", "pie", "donut"])
    (hl : findMatchingColumn (aiLabelColOf cfg) d.meta.fields = some lc)
    (hv : cfg.aggregation = some "count" ∨
      optTruthy (resolvedValueCol cfg d.meta.fields) = true)
    (hlen : 20 < (sortDescByValue (aggregatedOf cfg d lc)).length) :
    seriesOf (prepareChartData sortSeq cfg d) =
      some (.cat
        (((sortDescByValue (aggregatedOf cfg d lc)).take 19).map Prod.fst ++ ["Other"])
        (((sortDescByValue (aggregatedOf cfg d lc)).take 19).map Prod.snd ++
          [(((sortDescByValue (aggregatedOf cfg d lc)).drop 19).map Prod.snd).foldl
              (fun a b => a + b) ⟨0, 1⟩])) := by
  have hct5 : cfg.chartType ∈ ["bar", "line", "area", "pie", "donut"] := by
    simp only [List.mem_cons, List.not_mem_nil, or_false] at hct
    rcases hct with h | h | h <;> rw [h] <;> decide
  have hguard : ¬ ((!(cfg.aggregation = some "count")) &&
      !(optTruthy (resolvedValueCol cfg d.meta.fields))) = true := by
    rcases hv with h | h <;> simp [h]
  have hpres : presentedItems sortSeq cfg (aggregatedOf cfg d lc) =
      sortDescByValue (aggregatedOf cfg d lc) := by
    unfold presentedItems
    rw [if_pos hct]
  have hcoll : collapseCategories cfg (sortDescByValue (aggregatedOf cfg d lc)) =
      ((((sortDescByValue (aggregatedOf cfg d lc)).take 19).map Prod.fst ++ ["Other"]),
        (((sortDescByValue (aggregatedOf cfg d lc)).take 19).map Prod.snd ++
          [(((sortDescByValue (aggregatedOf cfg d lc)).drop 19).map Prod.snd).foldl
              (fun a b => a + b) ⟨0, 1⟩])) := by
    unfold collapseCategories
    have hcond : (decide (cfg.chartType ∈ ["bar", "pie", "donut"]) &&
        decide (20 < (sortDescByValue (aggregatedOf cfg d lc)).length)) = true := by
      simp [hct, hlen]
    rw [if_pos hcond]
  unfold prepareChartData
  dsimp only
  rw [if_pos hct5, hl]
  dsimp only
  rw [if_neg hguard, hpres, hcoll]
  rfl

/-- Witness for C7: 25 one-row groups with values 1..25 collapse to
the top 19 plus Other = 1+2+3+4+5+6 = 21. -/
theorem c7_witness :
    seriesOf (prepareChartData id barSumConfig groups25Data) =
      some (.cat
        ["g25", "g24", "g23", "g22", "g21", "g20", "g19", "g18", "g17", "g16", "g15",
         "g14", "g13", "g12", "g11", "g10", "g9", "g8", "g7", "Other"]
        [25, 24, 23, 22, 21, 20, 19, 18, 17, 16, 15, 14, 13, 12, 11, 10, 9, 8, 7, 21]) := by
  have h := c7_category_collapsing id barSumConfig groups25Data "g"
    (by decide) (by decide) (Or.inr (by decide)) (by decide)
  rw [h]
  decide

end DataVibe
